import Mathlib

/-!
Verification of the session, embedding and chat clients of the `rag-system`
front end (`src/front-end/ai-assistant-front/src`).  The TypeScript services
(`authService.ts`, `chatService.ts`, `supersetService.ts`) and the React
components (`SupersetDashboard.tsx`, `ChatWidget.tsx`, `AuthProvider.tsx`)
are shallowly embedded as pure Lean functions: browser `localStorage` becomes
an explicit record of optional string entries, axios responses and rejections
become explicit data, and every asynchronous handler becomes a function from
its inputs (including the eventual network outcome) to its resulting state.
-/

namespace RagFrontend

/-- Persisted client-side session storage: the three `localStorage` keys the
front end uses (`authToken`, `refreshToken`, `user`).  `none` means the key is
absent. -/
structure Storage where
  authToken : Option String
  refreshToken : Option String
  user : Option String
  deriving DecidableEq, Repr

/-- `authService.isAuthenticated` (authService.ts lines 131-134):
`!!localStorage.getItem('authToken')`. -/
def isAuthenticated (st : Storage) : Bool :=
  st.authToken.isSome

/-- The part of an axios error response the clients inspect: the HTTP status
and the optional `data.message` field supplied by the backend. -/
structure AxResponse where
  status : Nat
  dataMessage : Option String
  deriving DecidableEq, Repr

/-- An axios rejection value.  `response = some r` means the server answered
with a non-2xx status; `hasRequest` means the request was sent but no response
arrived; `message` is the error's own `.message` property (axios fills it with
a transport-level description). -/
structure AxiosError where
  response : Option AxResponse
  hasRequest : Bool
  message : String
  deriving DecidableEq, Repr

/-- A thrown JavaScript value as the catch sites distinguish them: an axios
error (which is an `Error`), some other `Error`, or a non-`Error` value. -/
inductive Thrown where
  | axios (e : AxiosError)
  | jsError (message : String)
  | nonError
  deriving DecidableEq, Repr

/-- Model of the axios library's rejection for a request the server answered
with status `status`: axios rejects with an `AxiosError` whose `response`
carries the status and the backend body's optional `message` field, and whose
own `.message` is the transport-level text
`"Request failed with status code <status>"`. -/
def axiosRejection (status : Nat) (dataMessage : Option String) : Thrown :=
  .axios
    { response := some { status := status, dataMessage := dataMessage }
      hasRequest := true
      message := "Request failed with status code " ++ toString status }

/-- Outcome of passing an error response through a response interceptor:
the possibly-updated storage and whether the browser was redirected to
`/login`. -/
structure InterceptOutcome where
  storage : Storage
  redirectedToLogin : Bool
  deriving DecidableEq, Repr

/-- The response interceptor `apiClient` registers in authService.ts
lines 29-40: on a response with status 401 it removes the `authToken` and
`user` keys and navigates to `/login`; every other error passes through
unchanged.  (It does not touch the `refreshToken` key.) -/
def authResponseInterceptor (st : Storage) (e : AxiosError) : InterceptOutcome :=
  match e.response with
  | some r =>
    if r.status = 401 then
      { storage := { st with authToken := none, user := none },
        redirectedToLogin := true }
    else
      { storage := st, redirectedToLogin := false }
  | none => { storage := st, redirectedToLogin := false }

/-- The response interceptor `apiClient` registers in chatService.ts
lines 28-39; its body is identical to the one in authService.ts. -/
def chatResponseInterceptor (st : Storage) (e : AxiosError) : InterceptOutcome :=
  match e.response with
  | some r =>
    if r.status = 401 then
      { storage := { st with authToken := none, user := none },
        redirectedToLogin := true }
    else
      { storage := st, redirectedToLogin := false }
  | none => { storage := st, redirectedToLogin := false }

/-- The embedding client's axios instance (supersetService.ts lines 51-76)
registers a request interceptor only and no response interceptor, so an error
response - whatever its status - changes no storage and causes no redirect. -/
def supersetResponseInterceptor (st : Storage) (_e : AxiosError) : InterceptOutcome :=
  { storage := st, redirectedToLogin := false }

/-- `authService.handleError` (authService.ts lines 161-182), modelled by the
message of the `Error` it returns: a backend-rejected request surfaces the
backend's `data.message` when truthy, else a generic server message; a request
with no response surfaces a generic network message; other errors keep their
own message, with a generic fallback for empty or non-`Error` values. -/
def authHandleError : Thrown → String
  | .axios e =>
    match e.response with
    | some r =>
      match r.dataMessage with
      | some m => if m = "" then "Server error occurred" else m
      | none => "Server error occurred"
    | none =>
      if e.hasRequest then "Network error. Please check your connection."
      else if e.message = "" then "An unexpected error occurred" else e.message
  | .jsError m => m
  | .nonError => "An unexpected error occurred"

/-- `chatService.handleError` (chatService.ts lines 65-86): the same shape as
`authService.handleError` with localized fallback messages. -/
def chatHandleError : Thrown → String
  | .axios e =>
    match e.response with
    | some r =>
      match r.dataMessage with
      | some m => if m = "" then "خطا در سرور رخ داد" else m
      | none => "خطا در سرور رخ داد"
    | none =>
      if e.hasRequest then "خطا در شبکه. لطفاً اتصال خود را بررسی کنید."
      else if e.message = "" then "خطای غیرمنتظره رخ داد" else e.message
  | .jsError m => m
  | .nonError => "خطای غیرمنتظره رخ داد"

/-- `supersetService.generateGuestToken` and the other `SupersetService`
methods (supersetService.ts lines 82-160) have no catch and no error
normalization: a rejection propagates to the caller unchanged. -/
def supersetPropagatedError (t : Thrown) : Thrown := t

/-- Request body of `POST /api/superset/guest-token/`
(supersetService.ts lines 11-15; the optional `resources` and `rls` fields are
never set by the front end and are omitted). -/
structure GuestTokenRequest where
  dashboard_uuid : String
  deriving DecidableEq, Repr

/-- Response of the guest-token endpoint (supersetService.ts lines 24-28). -/
structure GuestTokenResponse where
  token : String
  dashboard_uuid : String
  superset_domain : String
  deriving DecidableEq, Repr

/-- The guest-token request issued at step 1 of the mount sequence
(SupersetDashboard.tsx lines 41-43): `{ dashboard_uuid: dashboardUuid }` for
the mounted component's `dashboardUuid` prop. -/
def initialGuestTokenRequest (dashboardUuid : String) : GuestTokenRequest :=
  { dashboard_uuid := dashboardUuid }

/-- The guest-token request issued by the `fetchGuestToken` refresh callback
handed to the SDK (SupersetDashboard.tsx lines 52-57): the callback closes
over the same `dashboardUuid` prop, so every refresh request carries it. -/
def fetchGuestTokenRequest (dashboardUuid : String) : GuestTokenRequest :=
  { dashboard_uuid := dashboardUuid }

/-- All guest-token requests made on behalf of one mount of `dashboardUuid`:
the initial request followed by one refresh-callback request per autonomous
SDK refresh (`refreshCalls` of them). -/
def mountGuestTokenRequests (dashboardUuid : String) (refreshCalls : Nat) :
    List GuestTokenRequest :=
  initialGuestTokenRequest dashboardUuid ::
    List.replicate refreshCalls (fetchGuestTokenRequest dashboardUuid)

/-- Content the embedding SDK can place in the mount container: the iframe of
one dashboard, tagged by the id the SDK was mounted with. -/
inductive EmbedContent where
  | iframe (dashboardUuid : String)
  deriving DecidableEq, Repr

/-- Observable state of one `SupersetDashboard` component instance: the mount
container's children, the `loading` and `error` React state, and how often the
`onDashboardLoad` and `onDashboardError` callbacks have fired (the latter with
their messages). -/
structure MountState where
  container : List EmbedContent
  loading : Bool
  error : Option String
  onLoadCalls : Nat
  onErrorCalls : List String
  deriving DecidableEq, Repr

/-- Initial component state (SupersetDashboard.tsx lines 23-25): empty
container, `loading = true`, `error = null`, no callback fired yet. -/
def initialMountState : MountState :=
  { container := []
    loading := true
    error := none
    onLoadCalls := 0
    onErrorCalls := [] }

/-- Environment of one execution of the effect body `run`
(SupersetDashboard.tsx lines 30-79): whether `mountRef.current` is attached,
the outcome of the guest-token request, the outcome of `embedDashboard`, and
the value of the closed-over `isCancelled` flag at the time the async result
is applied (the cleanup has run by then iff it is `true`). -/
structure MountEnv where
  refAttached : Bool
  tokenResult : Except Thrown GuestTokenResponse
  embedResult : Except Thrown Unit
  cancelledAtResult : Bool
  deriving Repr

/-- The message computed at the catch site of `run`
(SupersetDashboard.tsx line 72): `e instanceof Error ? e.message :
"Failed to embed dashboard"`.  An axios rejection is an `Error`, so its own
transport-level `.message` is used. -/
def thrownCatchMessage : Thrown → String
  | .axios e => e.message
  | .jsError m => m
  | .nonError => "Failed to embed dashboard"

/-- The catch branch of `run` (SupersetDashboard.tsx lines 71-78): compute the
message, and unless `isCancelled` is set, stop the spinner, record the error
and invoke `onDashboardError` once with the message. -/
def applyCatch (e : Thrown) (cancelled : Bool) (st : MountState) : MountState :=
  let msg := thrownCatchMessage e
  if cancelled then st
  else
    { st with
      loading := false
      error := some msg
      onErrorCalls := st.onErrorCalls ++ [msg] }

/-- One execution of the effect body `run` of `SupersetDashboard`
(SupersetDashboard.tsx lines 30-79) for prop `dashboardUuid` in environment
`env`, starting from state `st`:
`setLoading(true)` and `setError(null)` run synchronously; if the ref is
unattached the body returns early; otherwise the container is emptied
(`innerHTML = ""`), the guest token is requested, and `embedDashboard` is
awaited - on success the SDK has placed the dashboard's iframe in the
container and, unless cancelled, the spinner stops and `onDashboardLoad`
fires; any failure goes to the catch branch with the container left empty. -/
def runEffect (dashboardUuid : String) (env : MountEnv) (st : MountState) :
    MountState :=
  let st0 := { st with loading := true, error := none }
  if env.refAttached = false then st0
  else
    let st1 := { st0 with container := [] }
    match env.tokenResult with
    | .error e => applyCatch e env.cancelledAtResult st1
    | .ok _ =>
      match env.embedResult with
      | .error e => applyCatch e env.cancelledAtResult st1
      | .ok _ =>
        let st2 := { st1 with container := [EmbedContent.iframe dashboardUuid] }
        if env.cancelledAtResult then st2
        else { st2 with loading := false, onLoadCalls := st2.onLoadCalls + 1 }

/-- The cleanup returned by the effect (SupersetDashboard.tsx lines 83-87),
run when the component unmounts or `dashboardUuid` changes: it sets
`isCancelled` (modelled by `cancelledAtResult` of the next result to arrive)
and empties the container. -/
def cleanupEffect (st : MountState) : MountState :=
  { st with container := [] }

/-- The user record of the auth context (authContext.ts lines 3-11). -/
structure User where
  id : Nat
  username : String
  phone : String
  first_name : Option String
  last_name : Option String
  created_at : Option String
  roles : Option (List String)
  deriving DecidableEq, Repr

/-- Shape of a successful login/signup response (authService.ts lines 42-46). -/
structure LoginResponse where
  user : User
  token : String
  refreshToken : Option String
  deriving DecidableEq, Repr

/-- `authService.logout` (authService.ts lines 88-100): it posts to the
logout endpoint (whose rejection, after the 401 response interceptor, is
caught and merely logged) and in the `finally` block removes all three
storage keys.  The result is `Except`-valued to record that the function can
only resolve, never reject; the returned flag says whether a backend failure
was logged. -/
def logout (st : Storage) (backendResult : Except AxiosError Unit) :
    Except Thrown (Storage × Bool) :=
  let intercepted :=
    match backendResult with
    | .ok _ => ({ storage := st, redirectedToLogin := false } : InterceptOutcome)
    | .error e => authResponseInterceptor st e
  let failureLogged :=
    match backendResult with
    | .ok _ => false
    | .error _ => true
  .ok
    ({ intercepted.storage with
        authToken := none
        refreshToken := none
        user := none },
      failureLogged)

/-- `AuthProvider` React state (AuthProvider.tsx lines 10-11): the current
user record and the loading flag; `isAuthenticated` is derived as
`!!user` (line 13). -/
structure AuthState where
  user : Option User
  isLoading : Bool
  deriving DecidableEq, Repr

/-- Application of `AuthProvider.login`'s asynchronous result
(AuthProvider.tsx lines 35-43) to the provider state.  `mounted` says whether
the provider is still mounted when the response arrives; the source checks no
such flag, so the parameter is ignored: on success `setUser` runs and in
`finally` `setIsLoading(false)` runs, unconditionally. -/
def authProviderLoginApply (mounted : Bool) (st : AuthState)
    (result : Except Thrown LoginResponse) : AuthState :=
  match mounted, result with
  | _, .ok resp => { st with user := some resp.user, isLoading := false }
  | _, .error _ => { st with isLoading := false }

/-- Request body of `POST /api/utils/rag/chat` (chatService.ts lines 41-46).
JavaScript numbers are modelled as rationals. -/
structure ChatRequest where
  query : String
  n_results : Nat
  temperature : Rat
  max_tokens : Nat
  deriving DecidableEq, Repr

/-- Response of the RAG chat endpoint (chatService.ts lines 48-51). -/
structure ChatResponse where
  count : Nat
  sample_documents : List String
  deriving DecidableEq, Repr

/-- `chatService.sendMessage` (chatService.ts lines 55-62): the request body
is posted unconditionally - no client-side validation of the query - so the
list of requests reaching the network layer is always the singleton of the
given request; a rejection is normalized through `chatService.handleError`
into an `Error` carrying the returned message. -/
def chatSendMessage (req : ChatRequest) (backend : Except Thrown ChatResponse) :
    List ChatRequest × Except String ChatResponse :=
  ([req],
    match backend with
    | .ok r => .ok r
    | .error t => .error (chatHandleError t))

/-- Who authored a chat turn (ChatWidget.tsx lines 4-10). -/
inductive Sender where
  | user
  | assistant
  deriving DecidableEq, Repr

/-- One chat turn of the widget transcript (ChatWidget.tsx lines 4-10). -/
structure Message where
  id : String
  text : String
  sender : Sender
  timestamp : Nat
  documents : Option (List String)
  deriving DecidableEq, Repr

/-- The widget state touched by `handleSendMessage` (ChatWidget.tsx
lines 18-20): the transcript, the input box and the in-flight flag. -/
structure WidgetState where
  messages : List Message
  inputText : String
  isLoading : Bool
  deriving DecidableEq, Repr

/-- Model of JavaScript `String.prototype.trim`, used by the widget's blank
check `!inputText.trim()` (ChatWidget.tsx line 37): strips whitespace from
both ends. -/
def jsTrim (s : String) : String :=
  String.mk ((s.data.dropWhile Char.isWhitespace).reverse.dropWhile Char.isWhitespace).reverse

/-- The assistant turn's text (ChatWidget.tsx line 62), built from the
response's matched-document count. -/
def assistantText (count : Nat) : String :=
  "پاسخ بر اساس " ++ toString count ++ " سند مرتبط پیدا شد."

/-- `handleSendMessage` of the chat widget (ChatWidget.tsx lines 36-80):
a blank input (`!inputText.trim()`) returns at once, touching neither state
nor network; otherwise the user turn is appended and the request sent through
`chatService.sendMessage`; the response appends the assistant turn (or, on
failure, an assistant-authored error turn).  `now` models `Date.now()` at the
send; the returned list is every request that reached the network layer. -/
def handleSendMessage (st : WidgetState) (nResults : Nat) (temperature : Rat)
    (maxTokens : Nat) (now : Nat) (backend : Except Thrown ChatResponse) :
    WidgetState × List ChatRequest :=
  if jsTrim st.inputText = "" then (st, [])
  else
    let userMessage : Message :=
      { id := toString now
        text := st.inputText
        sender := .user
        timestamp := now
        documents := none }
    let st1 : WidgetState :=
      { messages := st.messages ++ [userMessage]
        inputText := ""
        isLoading := true }
    let req : ChatRequest :=
      { query := st.inputText
        n_results := nResults
        temperature := temperature
        max_tokens := maxTokens }
    let sent := chatSendMessage req backend
    match sent.snd with
    | .ok resp =>
      let assistantMessage : Message :=
        { id := toString (now + 1)
          text := assistantText resp.count
          sender := .assistant
          timestamp := now
          documents := some resp.sample_documents }
      ({ st1 with
          messages := st1.messages ++ [assistantMessage]
          isLoading := false },
        sent.fst)
    | .error msg =>
      let errorMessage : Message :=
        { id := toString (now + 1)
          text := msg
          sender := .assistant
          timestamp := now
          documents := none }
      ({ st1 with
          messages := st1.messages ++ [errorMessage]
          isLoading := false },
        sent.fst)

/-- `authService.getCurrentUser` (authService.ts lines 120-129).  `jsonParse`
models the external `JSON.parse` builtin specialized to the stored user
record: it either yields the parsed record or fails with a syntax error.  The
source reads the `user` entry, returns `null` for a falsy entry (absent or
the empty string), parses otherwise, and catches any parse exception to
return `null`; the `Except` result records that no exception escapes. -/
def getCurrentUser (st : Storage) (jsonParse : String → Except String User) :
    Except String (Option User) :=
  match st.user with
  | none => .ok none
  | some s =>
    if s = "" then .ok none
    else
      match jsonParse s with
      | .ok u => .ok (some u)
      | .error _ => .ok none

/-! Sample values used by witnesses and counterexamples. -/

/-- A fully populated session storage, as after a login that issued a refresh
token. -/
def sampleStorage : Storage :=
  { authToken := some "tok"
    refreshToken := some "ref"
    user := some "alice-json" }

/-- The axios rejection for a 401 response with no body message. -/
def sample401 : AxiosError :=
  { response := some { status := 401, dataMessage := none }
    hasRequest := true
    message := "Request failed with status code 401" }

/-- A concrete user record. -/
def sampleUser : User :=
  { id := 1
    username := "alice"
    phone := "09123456789"
    first_name := none
    last_name := none
    created_at := none
    roles := none }

/-- A concrete successful login response. -/
def sampleLoginResponse : LoginResponse :=
  { user := sampleUser
    token := "tok"
    refreshToken := none }

/-- A concrete guest-token response. -/
def sampleTokenResponse : GuestTokenResponse :=
  { token := "guest-tok"
    dashboard_uuid := "dash-uuid-1"
    superset_domain := "http://localhost:8088" }

/-- A mount environment in which everything succeeds. -/
def sampleMountEnv : MountEnv :=
  { refAttached := true
    tokenResult := .ok sampleTokenResponse
    embedResult := .ok ()
    cancelledAtResult := false }

/-! Helper lemmas shared by several claims. -/

/-- A string with a non-empty literal prefix is non-empty. -/
theorem append_ne_empty_left (a b : String) (h : a.data ≠ []) : a ++ b ≠ "" := by
  intro he
  apply h
  have h2 : (a ++ b).data = ("" : String).data := by rw [he]
  rw [String.data_append] at h2
  exact (List.append_eq_nil.mp h2).1

/-- Every guest-token request issued for a mount carries that mount's
dashboard id. -/
theorem mem_mountGuestTokenRequests (u : String) (k : Nat) (q : GuestTokenRequest)
    (hq : q ∈ mountGuestTokenRequests u k) : q.dashboard_uuid = u := by
  rcases List.mem_cons.mp hq with h | h
  · rw [h]; rfl
  · rw [List.eq_of_mem_replicate h]; rfl

/-- Starting from an empty container, one effect run leaves the container
either empty or holding exactly the mounted dashboard's iframe. -/
theorem runEffect_container_cases (u : String) (env : MountEnv) (st : MountState)
    (h : st.container = []) :
    (runEffect u env st).container = [] ∨
    (runEffect u env st).container = [EmbedContent.iframe u] := by
  rcases env with ⟨ra, tr, er, ca⟩
  cases ra
  · left
    simp [runEffect, h]
  · cases tr with
    | error e => cases ca <;> simp [runEffect, applyCatch]
    | ok v =>
      cases er with
      | error e => cases ca <;> simp [runEffect, applyCatch]
      | ok w => cases ca <;> simp [runEffect]

/-! Claim theorems. -/

/-- Claim C1, counterexample: with a full session in storage, a 401 response
processed by the auth client's interceptor leaves the persisted refresh token
in place, and a 401 response on an embedding-client endpoint clears nothing
and leaves `isAuthenticated` true - so a 401 does not clear all persisted
session fields regardless of endpoint. -/
theorem claim1_counterexample :
    (authResponseInterceptor sampleStorage sample401).storage.refreshToken = some "ref" ∧
    supersetResponseInterceptor sampleStorage sample401 =
      { storage := sampleStorage, redirectedToLogin := false } ∧
    isAuthenticated (supersetResponseInterceptor sampleStorage sample401).storage = true := by
  refine ⟨rfl, rfl, rfl⟩

/-- Claim C1, amended: a 401 response processed by the auth or chat client
removes the bearer token and user record (making `isAuthenticated` false) and
redirects to the login screen, but leaves the refresh token untouched; the
embedding client's axios instance has no response interceptor, so a 401 from
its endpoints changes no storage at all. -/
theorem claim1_amended_401_teardown (st : Storage) (e : AxiosError)
    (r : AxResponse) (hr : e.response = some r) (h401 : r.status = 401) :
    (authResponseInterceptor st e).storage.authToken = none ∧
    (authResponseInterceptor st e).storage.user = none ∧
    (authResponseInterceptor st e).storage.refreshToken = st.refreshToken ∧
    isAuthenticated (authResponseInterceptor st e).storage = false ∧
    (authResponseInterceptor st e).redirectedToLogin = true ∧
    chatResponseInterceptor st e = authResponseInterceptor st e ∧
    supersetResponseInterceptor st e =
      { storage := st, redirectedToLogin := false } := by
  simp [authResponseInterceptor, chatResponseInterceptor,
    supersetResponseInterceptor, isAuthenticated, hr, h401]

/-- Witness for the amended claim C1 at a concrete 401 response. -/
theorem claim1_amended_witness :
    (authResponseInterceptor sampleStorage sample401).storage.authToken = none ∧
    (authResponseInterceptor sampleStorage sample401).storage.user = none ∧
    (authResponseInterceptor sampleStorage sample401).storage.refreshToken =
      sampleStorage.refreshToken ∧
    isAuthenticated (authResponseInterceptor sampleStorage sample401).storage = false ∧
    (authResponseInterceptor sampleStorage sample401).redirectedToLogin = true ∧
    chatResponseInterceptor sampleStorage sample401 =
      authResponseInterceptor sampleStorage sample401 ∧
    supersetResponseInterceptor sampleStorage sample401 =
      { storage := sampleStorage, redirectedToLogin := false } :=
  claim1_amended_401_teardown sampleStorage sample401
    { status := 401, dataMessage := none } rfl rfl

/-- Claim C2: every guest token handed to the embedding SDK for a mount of
dashboard id `a` - the initial one and every one produced by the
`fetchGuestToken` refresh callback - was requested scoped to `a`, and a
request belonging to a mount of `a` can only belong to a mount of `b` when
`a = b`. -/
theorem claim2_token_scoped_to_mount (a b : String) (n m : Nat)
    (r : GuestTokenRequest) (ha : r ∈ mountGuestTokenRequests a n) :
    r.dashboard_uuid = a ∧ (r ∈ mountGuestTokenRequests b m → a = b) :=
  ⟨mem_mountGuestTokenRequests a n r ha,
    fun hb => (mem_mountGuestTokenRequests a n r ha).symm.trans
      (mem_mountGuestTokenRequests b m r hb)⟩

/-- Witness for claim C2 at a concrete mount with one SDK refresh. -/
theorem claim2_witness :
    (fetchGuestTokenRequest "dash-uuid-1").dashboard_uuid = "dash-uuid-1" ∧
    (fetchGuestTokenRequest "dash-uuid-1" ∈ mountGuestTokenRequests "dash-uuid-2" 1 →
      "dash-uuid-1" = "dash-uuid-2") :=
  claim2_token_scoped_to_mount "dash-uuid-1" "dash-uuid-2" 1 1
    (fetchGuestTokenRequest "dash-uuid-1") (by decide)

/-- Claim C3: mount first clears any previously mounted content and the
cleanup empties the container, so after a second mount with a different id
completes, no content of the first id remains and at most one embed is active
in the container.  The second run is modelled on the state left by the first
run's cleanup (React runs the previous effect's cleanup when `dashboardUuid`
changes). -/
theorem claim3_remount_clears_previous (uuid1 uuid2 : String) (h : uuid1 ≠ uuid2)
    (env1 env2 : MountEnv) (st0 : MountState) :
    (cleanupEffect (runEffect uuid1 env1 st0)).container = [] ∧
    EmbedContent.iframe uuid1 ∉
      (runEffect uuid2 env2 (cleanupEffect (runEffect uuid1 env1 st0))).container ∧
    (runEffect uuid2 env2 (cleanupEffect (runEffect uuid1 env1 st0))).container.length ≤ 1 := by
  refine ⟨rfl, ?_, ?_⟩
  · rcases runEffect_container_cases uuid2 env2
      (cleanupEffect (runEffect uuid1 env1 st0)) rfl with hc | hc <;> rw [hc]
    · simp
    · simp [h]
  · rcases runEffect_container_cases uuid2 env2
      (cleanupEffect (runEffect uuid1 env1 st0)) rfl with hc | hc <;> rw [hc] <;> simp

/-- Witness for claim C3 at two concrete successive mounts. -/
theorem claim3_witness :
    (cleanupEffect (runEffect "dash-uuid-1" sampleMountEnv initialMountState)).container = [] ∧
    EmbedContent.iframe "dash-uuid-1" ∉
      (runEffect "dash-uuid-2" sampleMountEnv
        (cleanupEffect (runEffect "dash-uuid-1" sampleMountEnv initialMountState))).container ∧
    (runEffect "dash-uuid-2" sampleMountEnv
      (cleanupEffect (runEffect "dash-uuid-1" sampleMountEnv initialMountState))).container.length ≤ 1 :=
  claim3_remount_clears_previous "dash-uuid-1" "dash-uuid-2" (by decide)
    sampleMountEnv sampleMountEnv initialMountState

/-- A mount environment whose guest-token request is rejected by the backend
with HTTP 500 and a body message. -/
def sampleFailEnv : MountEnv :=
  { refAttached := true
    tokenResult := .error (axiosRejection 500 (some "Invalid dashboard uuid"))
    embedResult := .ok ()
    cancelledAtResult := false }

/-- Claim C4, counterexample: when the token endpoint rejects with HTTP 500
and the backend-supplied body message "Invalid dashboard uuid", `onError`
receives the axios transport message "Request failed with status code 500" -
the embedding client never extracts the backend-supplied message, contrary to
the claim. -/
theorem claim4_counterexample :
    (runEffect "dash-uuid-1" sampleFailEnv initialMountState).onErrorCalls =
      ["Request failed with status code 500"] ∧
    "Request failed with status code 500" ≠ "Invalid dashboard uuid" :=
  ⟨rfl, by decide⟩

/-- Claim C4, amended: for every failure of the token fetch or of the SDK
embed in an uncancelled run with the container attached, `onError` is invoked
exactly once with the thrown error's own message (for an axios rejection the
transport status text, not the backend-supplied message field; the fallback
"Failed to embed dashboard" for a non-`Error` value), the container is left
empty and `onLoad` never fires; on success `onLoad` fires once and `onError`
never; the messages for axios rejections and for the fallback are non-empty.
`runEffect` is a total function, so no exception escapes the handler. -/
theorem claim4_amended_mount_error_contract (uuid : String) (env : MountEnv)
    (t : Thrown) (hatt : env.refAttached = true)
    (hcanc : env.cancelledAtResult = false) :
    (env.tokenResult = .error t →
      (runEffect uuid env initialMountState).onErrorCalls = [thrownCatchMessage t] ∧
      (runEffect uuid env initialMountState).container = [] ∧
      (runEffect uuid env initialMountState).onLoadCalls = 0) ∧
    (∀ v, env.tokenResult = .ok v → env.embedResult = .error t →
      (runEffect uuid env initialMountState).onErrorCalls = [thrownCatchMessage t] ∧
      (runEffect uuid env initialMountState).container = [] ∧
      (runEffect uuid env initialMountState).onLoadCalls = 0) ∧
    (∀ v, env.tokenResult = .ok v → env.embedResult = .ok () →
      (runEffect uuid env initialMountState).onLoadCalls = 1 ∧
      (runEffect uuid env initialMountState).onErrorCalls = []) ∧
    (∀ s dm, thrownCatchMessage (axiosRejection s dm) ≠ "") ∧
    thrownCatchMessage .nonError ≠ "" := by
  refine ⟨?_, ?_, ?_, ?_, by decide⟩
  · intro he
    simp [runEffect, applyCatch, hatt, hcanc, he, initialMountState]
  · intro v hv hev
    simp [runEffect, applyCatch, hatt, hcanc, hv, hev, initialMountState]
  · intro v hv hev
    simp [runEffect, hatt, hcanc, hv, hev, initialMountState]
  · intro s dm
    simp only [axiosRejection, thrownCatchMessage]
    exact append_ne_empty_left "Request failed with status code " (toString s) (by decide)

/-- Witness for the amended claim C4 at the concrete HTTP-500 rejection. -/
theorem claim4_amended_witness :
    (runEffect "dash-uuid-1" sampleFailEnv initialMountState).onErrorCalls =
      [thrownCatchMessage (axiosRejection 500 (some "Invalid dashboard uuid"))] ∧
    (runEffect "dash-uuid-1" sampleFailEnv initialMountState).container = [] ∧
    (runEffect "dash-uuid-1" sampleFailEnv initialMountState).onLoadCalls = 0 :=
  (claim4_amended_mount_error_contract "dash-uuid-1" sampleFailEnv
    (axiosRejection 500 (some "Invalid dashboard uuid")) rfl rfl).1 rfl

/-- Claim C5, counterexample: `AuthProvider.login` applies `setUser` with no
mounted check, so a login response arriving when the provider is no longer
mounted (`mounted = false`) and the session has been cleared (`user = none`)
still re-populates the user state. -/
theorem claim5_counterexample :
    (authProviderLoginApply false { user := none, isLoading := true }
      (.ok sampleLoginResponse)).user = some sampleUser ∧
    some sampleUser ≠ (none : Option User) :=
  ⟨rfl, by decide⟩

/-- Claim C5, amended: the stale-response guard exists only in the dashboard
embed component - when the effect's `isCancelled` flag is set at the time an
async result arrives, `runEffect` fires no callback and leaves the `loading`
and `error` state at their synchronous initial values - while `AuthProvider`
applies async login results identically whether or not it is still mounted. -/
theorem claim5_amended_cancellation_guard (uuid : String) (env : MountEnv)
    (st : MountState) (hcanc : env.cancelledAtResult = true) :
    (runEffect uuid env st).onLoadCalls = st.onLoadCalls ∧
    (runEffect uuid env st).onErrorCalls = st.onErrorCalls ∧
    (runEffect uuid env st).loading = true ∧
    (runEffect uuid env st).error = none ∧
    (∀ (m1 m2 : Bool) (ast : AuthState) (r : Except Thrown LoginResponse),
      authProviderLoginApply m1 ast r = authProviderLoginApply m2 ast r) := by
  refine ⟨?_, ?_, ?_, ?_, fun m1 m2 ast r => by cases r <;> rfl⟩
  all_goals
    rcases env with ⟨ra, tr, er, ca⟩
    obtain rfl : ca = true := hcanc
    cases ra
    · simp [runEffect]
    · cases tr with
      | error e => simp [runEffect, applyCatch]
      | ok v =>
        cases er with
        | error e2 => simp [runEffect, applyCatch]
        | ok w => simp [runEffect]

/-- A mount environment cancelled before its successful result arrives. -/
def sampleCancelledEnv : MountEnv :=
  { refAttached := true
    tokenResult := .ok sampleTokenResponse
    embedResult := .ok ()
    cancelledAtResult := true }

/-- Witness for the amended claim C5 at a concrete cancelled run and a
concrete late login failure. -/
theorem claim5_amended_witness :
    (runEffect "dash-uuid-1" sampleCancelledEnv initialMountState).onLoadCalls =
      initialMountState.onLoadCalls ∧
    (runEffect "dash-uuid-1" sampleCancelledEnv initialMountState).onErrorCalls =
      initialMountState.onErrorCalls ∧
    (runEffect "dash-uuid-1" sampleCancelledEnv initialMountState).loading = true ∧
    (runEffect "dash-uuid-1" sampleCancelledEnv initialMountState).error = none ∧
    authProviderLoginApply false { user := none, isLoading := true }
        (.error (.jsError "network down")) =
      authProviderLoginApply true { user := none, isLoading := true }
        (.error (.jsError "network down")) := by
  have h := claim5_amended_cancellation_guard "dash-uuid-1" sampleCancelledEnv
    initialMountState rfl
  exact ⟨h.1, h.2.1, h.2.2.1, h.2.2.2.1, h.2.2.2.2 false true _ _⟩

/-- Claim C6: whatever the backend logout call does - including a rejection
the response interceptor has already processed - `logout` resolves (never
rejects), all three persisted session entries are cleared, `isAuthenticated`
becomes false, and a backend failure is logged rather than surfaced. -/
theorem claim6_logout_unconditional_teardown (st : Storage)
    (r : Except AxiosError Unit) :
    ∃ out : Storage × Bool,
      logout st r = .ok out ∧
      out.fst.authToken = none ∧
      out.fst.refreshToken = none ∧
      out.fst.user = none ∧
      isAuthenticated out.fst = false ∧
      (∀ u, r = .ok u → out.snd = false) ∧
      (∀ e, r = .error e → out.snd = true) := by
  cases r with
  | ok u =>
    refine ⟨_, rfl, rfl, rfl, rfl, rfl, ?_, ?_⟩
    · intro u2 h2
      rfl
    · intro e h2
      exact Except.noConfusion h2
  | error e =>
    refine ⟨_, rfl, rfl, rfl, rfl, rfl, ?_, ?_⟩
    · intro u2 h2
      exact Except.noConfusion h2
    · intro e2 h2
      rfl

/-- Witness for claim C6 at a concrete full session and a failing backend
logout call. -/
theorem claim6_witness :
    ∃ out : Storage × Bool,
      logout sampleStorage (.error sample401) = .ok out ∧
      out.fst.authToken = none ∧
      out.fst.refreshToken = none ∧
      out.fst.user = none ∧
      isAuthenticated out.fst = false ∧
      (∀ u, (.error sample401 : Except AxiosError Unit) = .ok u → out.snd = false) ∧
      (∀ e, (.error sample401 : Except AxiosError Unit) = .error e → out.snd = true) :=
  claim6_logout_unconditional_teardown sampleStorage (.error sample401)

/-- Claim C7, counterexample: the embedding client propagates a backend
rejection unchanged, so although the backend supplied the body message
"Invalid dashboard uuid", the error value the caller catches carries the
axios transport message "Request failed with status code 500" - the embedding
session client does not normalize errors to the backend-supplied message. -/
theorem claim7_counterexample :
    supersetPropagatedError (axiosRejection 500 (some "Invalid dashboard uuid")) =
      axiosRejection 500 (some "Invalid dashboard uuid") ∧
    thrownCatchMessage (axiosRejection 500 (some "Invalid dashboard uuid")) =
      "Request failed with status code 500" ∧
    "Request failed with status code 500" ≠ "Invalid dashboard uuid" :=
  ⟨rfl, rfl, by decide⟩

/-- Claim C7, amended: the auth and chat clients normalize every failure into
a single error value with a display-ready message - the backend-supplied
message when present and non-empty, a generic (auth) or localized (chat)
fallback for backend rejections without one, a network-failure message when
no response arrived, and a generic fallback for non-`Error` throws - and the
message for any axios failure is non-empty; the embedding client performs no
such normalization and propagates the thrown value unchanged. -/
theorem claim7_amended_error_normalization (e : AxiosError) :
    (∀ r m, e.response = some r → r.dataMessage = some m → m ≠ "" →
      authHandleError (.axios e) = m ∧ chatHandleError (.axios e) = m) ∧
    (e.response = none → e.hasRequest = true →
      authHandleError (.axios e) = "Network error. Please check your connection." ∧
      chatHandleError (.axios e) = "خطا در شبکه. لطفاً اتصال خود را بررسی کنید.") ∧
    ((∃ r, e.response = some r) →
      authHandleError (.axios e) ≠ "" ∧ chatHandleError (.axios e) ≠ "") ∧
    authHandleError .nonError = "An unexpected error occurred" ∧
    chatHandleError .nonError = "خطای غیرمنتظره رخ داد" ∧
    (∀ t, supersetPropagatedError t = t) := by
  refine ⟨?_, ?_, ?_, rfl, rfl, fun t => rfl⟩
  · intro r m hr hm hne
    constructor <;> simp [authHandleError, chatHandleError, hr, hm, hne]
  · intro hr hreq
    constructor <;> simp [authHandleError, chatHandleError, hr, hreq]
  · rintro ⟨r, hr⟩
    constructor
    · rcases hm : r.dataMessage with _ | m
      · simp only [authHandleError, hr, hm]
        decide
      · by_cases hme : m = ""
        · simp [authHandleError, hr, hm, hme]
        · simp [authHandleError, hr, hm, hme]
    · rcases hm : r.dataMessage with _ | m
      · simp only [chatHandleError, hr, hm]
        decide
      · by_cases hme : m = ""
        · simp [chatHandleError, hr, hm, hme]
        · simp [chatHandleError, hr, hm, hme]

/-- An axios rejection carrying a non-empty backend body message. -/
def sampleBackendError : AxiosError :=
  { response := some { status := 401, dataMessage := some "bad credentials" }
    hasRequest := true
    message := "Request failed with status code 401" }

/-- Witness for the amended claim C7 at a backend rejection with a body
message. -/
theorem claim7_amended_witness :
    authHandleError (.axios sampleBackendError) = "bad credentials" ∧
    chatHandleError (.axios sampleBackendError) = "bad credentials" :=
  (claim7_amended_error_normalization sampleBackendError).1
    { status := 401, dataMessage := some "bad credentials" } "bad credentials"
    rfl rfl (by decide)

/-- The chat request built from a whitespace-only input. -/
def sampleBlankRequest : ChatRequest :=
  { query := "   "
    n_results := 5
    temperature := 7/10
    max_tokens := 1000 }

/-- Claim C8, counterexample: `chatService.sendMessage` performs no
client-side validation - called with a whitespace-only query, the request
still reaches the network layer. -/
theorem claim8_counterexample :
    jsTrim "   " = "" ∧
    (chatSendMessage sampleBlankRequest
      (.ok { count := 0, sample_documents := [] })).fst = [sampleBlankRequest] ∧
    [sampleBlankRequest] ≠ ([] : List ChatRequest) := by
  refine ⟨by decide, rfl, by simp⟩

/-- Claim C8, amended: the blank-input rejection lives in the widget's
`handleSendMessage`, not in the service - for an empty or whitespace-only
input the handler returns immediately, leaving the state untouched and
sending nothing to the network layer. -/
theorem claim8_amended_widget_guard (st : WidgetState) (nResults : Nat)
    (temperature : Rat) (maxTokens : Nat) (now : Nat)
    (backend : Except Thrown ChatResponse) (h : jsTrim st.inputText = "") :
    handleSendMessage st nResults temperature maxTokens now backend = (st, []) := by
  simp [handleSendMessage, h]

/-- Witness for the amended claim C8 at a concrete whitespace-only input. -/
theorem claim8_amended_witness :
    handleSendMessage { messages := [], inputText := "   ", isLoading := false }
      5 (7/10) 1000 0 (.ok { count := 0, sample_documents := [] }) =
      ({ messages := [], inputText := "   ", isLoading := false }, []) :=
  claim8_amended_widget_guard
    { messages := [], inputText := "   ", isLoading := false }
    5 (7/10) 1000 0 (.ok { count := 0, sample_documents := [] }) (by decide)

/-- Claim C9: a successful send of a non-blank query appends exactly one user
turn followed by exactly one assistant turn to the existing transcript, in
that order. -/
theorem claim9_transcript_two_turns (st : WidgetState) (nResults : Nat)
    (temperature : Rat) (maxTokens : Nat) (now : Nat) (resp : ChatResponse)
    (h : jsTrim st.inputText ≠ "") :
    ∃ u a : Message,
      (handleSendMessage st nResults temperature maxTokens now (.ok resp)).fst.messages =
        st.messages ++ [u, a] ∧
      u.sender = .user ∧ u.text = st.inputText ∧
      a.sender = .assistant ∧ a.text = assistantText resp.count := by
  refine ⟨⟨toString now, st.inputText, .user, now, none⟩,
    ⟨toString (now + 1), assistantText resp.count, .assistant, now,
      some resp.sample_documents⟩, ?_, rfl, rfl, rfl, rfl⟩
  simp [handleSendMessage, chatSendMessage, h]

/-- The widget state at the moment the claim C9 scenario's query is sent. -/
def sampleChatState : WidgetState :=
  { messages := []
    inputText := "population of region X"
    isLoading := false }

/-- The claim C9 scenario's response: three matched documents. -/
def sampleChatResponse : ChatResponse :=
  { count := 3
    sample_documents := ["doc1", "doc2", "doc3"] }

/-- Witness for claim C9 at the concrete scenario of the spec. -/
theorem claim9_witness :
    ∃ u a : Message,
      (handleSendMessage sampleChatState 5 (7/10) 1000 42
        (.ok sampleChatResponse)).fst.messages =
        sampleChatState.messages ++ [u, a] ∧
      u.sender = .user ∧ u.text = sampleChatState.inputText ∧
      a.sender = .assistant ∧ a.text = assistantText sampleChatResponse.count :=
  claim9_transcript_two_turns sampleChatState 5 (7/10) 1000 42
    sampleChatResponse (by decide)

/-- Claim C10: `getCurrentUser` is total at its public interface - for every
storage content and every behaviour of the `JSON.parse` builtin it resolves
(the `Except` result is always `ok`, no parse exception escapes), returning
the parsed record for a stored non-empty entry the parser accepts and `null`
when the entry is absent or the parser fails. -/
theorem claim10_getCurrentUser_total (st : Storage)
    (jsonParse : String → Except String User) :
    (∃ v, getCurrentUser st jsonParse = .ok v) ∧
    (st.user = none → getCurrentUser st jsonParse = .ok none) ∧
    (∀ s u, st.user = some s → s ≠ "" → jsonParse s = .ok u →
      getCurrentUser st jsonParse = .ok (some u)) ∧
    (∀ s e, st.user = some s → jsonParse s = .error e →
      getCurrentUser st jsonParse = .ok none) := by
  refine ⟨?_, ?_, ?_, ?_⟩
  · rcases hu : st.user with _ | s
    · exact ⟨none, by simp [getCurrentUser, hu]⟩
    · by_cases hs : s = ""
      · exact ⟨none, by simp [getCurrentUser, hu, hs]⟩
      · rcases hp : jsonParse s with e | u
        · exact ⟨none, by simp [getCurrentUser, hu, hs, hp]⟩
        · exact ⟨some u, by simp [getCurrentUser, hu, hs, hp]⟩
  · intro h2
    simp [getCurrentUser, h2]
  · intro s u hu hs hp
    simp [getCurrentUser, hu, hs, hp]
  · intro s e hu hp
    by_cases hs : s = ""
    · simp [getCurrentUser, hu, hs]
    · simp [getCurrentUser, hu, hs, hp]

/-- A concrete stand-in for `JSON.parse`: accepts exactly the entry stored in
`sampleStorage` and fails on everything else. -/
def sampleJsonParse : String → Except String User :=
  fun s => if s = "alice-json" then .ok sampleUser else .error "SyntaxError"

/-- Witness for claim C10 at a concrete storage and parser. -/
theorem claim10_witness :
    getCurrentUser sampleStorage sampleJsonParse = .ok (some sampleUser) :=
  (claim10_getCurrentUser_total sampleStorage sampleJsonParse).2.2.1
    "alice-json" sampleUser rfl (by decide) (by simp [sampleJsonParse])

end RagFrontend
